import Mathlib

/-!
# Verification of the virtual-staging session lifecycle

A shallow embedding of the virtual-staging core of this repository:

* `src/models/virtual_staging.py` — the `VirtualStaging` pydantic model,
  `StagingParameters`, `ImageVersion`;
* `src/service/virtual_staging_service.py` — `generate_staging`,
  `save_change`, `revert_change`, `refine_staging`;
* `src/service/gemini_service.py` — the image-selection logic of
  `generate_image_from_image` (the Generation Client wrapper);
* `src/controllers/virtual_staging_controller.py` — the `/generate`,
  `/session` (create) and `/session/<id>/save-change` handlers.

External collaborators (Firestore, S3, the Gemini API, the local file
system, the wall clock) are parameters: the document store is an
association list keyed by `session_id`, the blob store and the generation
client are oracle functions, timestamps are a `now : Nat` argument.
Image bytes are modelled as `String`.

Python `Optional[str]` truthiness (`if not x:` is taken for both `None`
and `""`) is modelled by `optTruthy`.  Python keyword-argument binding at
a call site is modelled by `bindOk`: the parameter list of the callee and
the keyword list of the call are transcribed from the source, and the
call raises `TypeError` (caught by the enclosing `except` handler) iff
`bindOk` is `false`.  Pydantic v2 attribute access on a field that the
model does not declare raises `AttributeError`; this is modelled by
looking the attribute name up in the transcribed field list of the model
(`virtualStagingFields`).
-/

/-- Python truthiness of an `Optional[str]`: `None` and `""` are falsy. -/
def optTruthy : Option String → Bool
  | none => false
  | some s => !(s == "")

/-- Python `x or y` on `Optional[str]` operands. -/
def pyOr (x y : Option String) : Option String :=
  if optTruthy x then x else y

/-- Python `a if a else (b if b else (c if c else d))` over four
`Optional[str]` attributes — the `if/elif` selection chain of
`generate_image_from_image` (src/service/gemini_service.py lines 272-291). -/
def firstTruthy (a b c d : Option String) : Option String :=
  pyOr a (pyOr b (pyOr c d))

/-- `str.startswith(p)`, computed on the character list. -/
def strStartsWith (s p : String) : Bool :=
  p.data.isPrefixOf s.data

/-- `image_url.startswith('http://') or image_url.startswith('https://')`. -/
def startsWithHttp (s : String) : Bool :=
  strStartsWith s "http://" || strStartsWith s "https://"

/-- A character Python `str.strip()` removes. -/
def isPySpace (c : Char) : Bool :=
  c == ' ' || c == '\t' || c == '\n' || c == '\r' || c == '\x0b' || c == '\x0c'

/-- Python `str.strip()`: whitespace removed from both ends. -/
def pyStrip (s : String) : String :=
  ⟨((s.data.dropWhile isPySpace).reverse.dropWhile isPySpace).reverse⟩

/-- Keyword-argument binding at a Python call site: every keyword of the
call must name a parameter of the callee, and every parameter without a
default must be named by the call.  When this is `false` the call raises
`TypeError` before the callee body runs. -/
def bindOk (params defaults kwargs : List String) : Bool :=
  kwargs.all (fun k => params.contains k) &&
  params.all (fun p => defaults.contains p || kwargs.contains p)

/-- `StagingParameters` (src/models/virtual_staging.py lines 35-41). -/
structure StagingParameters where
  role : String := "professional interior designer"
  style : Option String := none
  furniture_style : Option String := none
  color_scheme : Option String := none
  specific_requests : Option String := none
  deriving Repr, DecidableEq

/-- `ImageVersion` (src/models/virtual_staging.py lines 44-53). -/
structure ImageVersion where
  version_number : Nat
  image_key : String
  image_url : String
  prompt_used : String
  parameters : StagingParameters
  is_saved : Bool := false
  created_at : Nat
  saved_at : Option Nat := none
  deriving Repr, DecidableEq

/-- One entry of `generation_history`.  In the source these are plain
dicts with heterogeneous key sets (`generate_staging` lines 254-260,
`refine_staging` lines 700-708, `revert_change` lines 444-450, and the
keys added by `save_change` lines 376-379); a key that a given entry does
not carry is modelled as `none`. -/
structure HistEntry where
  timestamp : Nat
  image_key : Option String := none
  image_path : Option String := none
  image_url : Option String := none
  prompt : Option String := none
  parameters : Option StagingParameters := none
  saved : Option Bool := none
  saved_at : Option Nat := none
  aws_key : Option String := none
  aws_url : Option String := none
  action : Option String := none
  reverted_to_version : Option Nat := none
  entry_type : Option String := none
  deriving Repr, DecidableEq

/-- The generation content of a history entry: every key except the four
that `save_change` mutates in place on the most recent entry
(`saved`, `saved_at`, `aws_key`, `aws_url`). -/
def HistEntry.core (e : HistEntry) :
    Nat × Option String × Option String × Option String × Option String ×
    Option StagingParameters × Option String × Option Nat × Option String :=
  (e.timestamp, e.image_key, e.image_path, e.image_url, e.prompt,
   e.parameters, e.action, e.reverted_to_version, e.entry_type)

/-- `VirtualStaging` (src/models/virtual_staging.py lines 56-97). -/
structure VirtualStaging where
  session_id : String
  property_id : String
  panoramic_images : List String := []
  current_image_index : Nat := 0
  chat_history_id : Option String := none
  orignal_image_key : Option String := none
  original_image_url : Option String := none
  original_image_path : Option String := none
  current_image_key : Option String := none
  current_image_url : Option String := none
  current_image_path : Option String := none
  current_parameters : Option StagingParameters := none
  current_prompt : Option String := none
  saved_versions : List ImageVersion := []
  version : Nat := 0
  last_saved_version : Nat := 0
  generation_history : List HistEntry := []
  created_at : Nat := 0
  updated_at : Nat := 0
  completed_at : Option Nat := none
  error_message : Option String := none
  deriving Repr, DecidableEq

/-- The declared field names of the pydantic `VirtualStaging` model
(src/models/virtual_staging.py lines 59-97).  Accessing any other
attribute on an instance raises `AttributeError` (pydantic v2 with the
default `extra='ignore'` silently drops unknown constructor keywords and
does not store them). -/
def virtualStagingFields : List String :=
  ["session_id", "property_id", "panoramic_images", "current_image_index",
   "chat_history_id", "orignal_image_key", "original_image_url",
   "original_image_path", "current_image_key", "current_image_url",
   "current_image_path", "current_parameters", "current_prompt",
   "saved_versions", "version", "last_saved_version", "generation_history",
   "created_at", "updated_at", "completed_at", "error_message"]

/-- The session collection of the document store
(`virtual_staging_sessions`); `BaseRepository.update` writes the full
document, so `put` replaces the stored session. -/
abbrev Store := List (String × VirtualStaging)

def Store.get : Store → String → Option VirtualStaging
  | [], _ => none
  | (k, v) :: rest, sid => if k = sid then some v else Store.get rest sid

def Store.put : Store → String → VirtualStaging → Store
  | [], sid, v => [(sid, v)]
  | (k, w) :: rest, sid, v =>
    if k = sid then (sid, v) :: rest else (k, w) :: Store.put rest sid v

/-- The chat-history collection, abstracted to a message count per
`history_id`; the claims below only need whether a history exists and
whether the stores were touched at all. -/
abbrev ChatStore := List (String × Nat)

def ChatStore.get : ChatStore → String → Option Nat
  | [], _ => none
  | (k, v) :: rest, hid => if k = hid then some v else ChatStore.get rest hid

def ChatStore.put : ChatStore → String → Nat → ChatStore
  | [], hid, v => [(hid, v)]
  | (k, w) :: rest, hid, v =>
    if k = hid then (hid, v) :: rest else (k, w) :: ChatStore.put rest hid v

/-- `add_assistant_message` /`add_message`
(src/repositories/virtual_staging_chat_history_repository.py): appends if
the history exists, reports `False` otherwise. -/
def ChatStore.addMessage (cs : ChatStore) (hid : String) : ChatStore :=
  match cs.get hid with
  | some n => cs.put hid (n + 1)
  | none => cs

/-- Result of `AWSService.upload_bytes`: a dict with `success`, and on
success `url` and `key`. -/
structure UploadResult where
  success : Bool
  url : String := ""
  key : String := ""

/-- One request made to the Generation Client wrapper
(`gemini_service.generate_image_from_image`): the prompt handed over, the
image it resolved to use, and the optional mask. -/
structure GeminiCall where
  prompt : String
  image : String
  mask : Option String
  deriving Repr, DecidableEq

/-- The external collaborators of the staging service: the local file
system (`os.path.exists` / `open`), the Generation Client (which either
returns image bytes — including its internal fallback path — or raises,
modelled as `none`), and the blob store `upload_bytes`
(bytes, filename, folder). -/
structure GenEnv where
  fs : String → Option String
  api : GeminiCall → Option String
  upload : String → String → String → UploadResult

/-- The keyword arguments accepted by `generate_staging`
(src/service/virtual_staging_service.py lines 131-137). -/
structure GenerateArgs where
  session_id : String
  staging_parameters : Option StagingParameters := none
  custom_prompt : Option String := none
  mask_image_url : Option String := none
  user_message : Option String := none
  image_path_override : Option String := none

/-- The part of `VirtualStagingResponse` the embedding retains
(`image_url`, `prompt_used`, `can_revert`); the `metadata` sub-object is
where the construction reads `session.user_id` and `session.room_name`
(src/service/virtual_staging_service.py lines 287-300), attributes the
`VirtualStaging` model does not declare, so in the running code this
value is never actually produced. -/
structure StagingResponsePayload where
  image_url : String
  prompt_used : String
  can_revert : Bool
  deriving Repr, DecidableEq

/-- Outcome of one `generate_staging` call: the returned value, the two
stores afterwards, a trace of the requests made to the Generation Client
and of blob-upload attempts, the upload result on success, and whether
the session document was written (`repository.update_session` ran). -/
structure GenerateResult where
  response : Option StagingResponsePayload
  store : Store
  chats : ChatStore
  calls : List GeminiCall
  uploads : Nat
  uploadedUrl : Option String
  uploadedKey : Option String
  committed : Bool

/-- The clause appended to a caller-supplied custom prompt when a mask is
supplied (src/service/virtual_staging_service.py line 191). -/
def maskInstructionCustom : String :=
  "\n\nMASK IMAGE INSTRUCTION:\nThe mask image shows a specific region of interest overlaid on the original room image. Use ONLY the mask to identify WHERE to apply changes - disregard the mask image\x27s visual content itself. Apply your staging modifications ONLY to the region indicated by the mask while maintaining the ORIGINAL IMAGE FORMAT. The output must preserve the room layout, camera angle, and architecture of the original image."

/-- The format-preservation clause of the template branch
(src/service/virtual_staging_service.py lines 202-203).  In the source it
is appended only after the `build_staging_prompt` call of that branch,
which raises `TypeError` (see `bindOk` facts below), so no reachable path
appends it. -/
def formatPreservation : String :=
  "\n\nIMPORTANT FORMAT PRESERVATION:\nMaintain the exact layout, camera angle, and room structure of the original image. Only modify the staging elements (furniture, decor, colors) while keeping the architectural elements, walls, windows, doors, and spatial arrangement identical. The staging should feel like furniture and decor adjustments to the SAME room."

/-- Parameters of `build_staging_prompt`
(src/config/prompt_config.py lines 70-74). -/
def buildStagingPromptParams : List String :=
  ["role", "style", "furniture_style", "color_scheme", "specific_request"]

/-- Parameters of `build_staging_prompt` that carry defaults. -/
def buildStagingPromptDefaults : List String :=
  ["style", "furniture_style", "color_scheme", "specific_request"]

/-- Keywords used at the `build_staging_prompt` call sites of the service
(src/service/virtual_staging_service.py lines 193-199 and 643-649):
`furniture_theme` instead of the parameter name `furniture_style`. -/
def serviceBuildPromptKwargs : List String :=
  ["role", "style", "furniture_theme", "color_scheme", "specific_request"]

/-- `VirtualStagingService.generate_staging`
(src/service/virtual_staging_service.py lines 131-312).  The template
branch (`elif params:`) calls `build_staging_prompt` with the keyword
`furniture_theme`, which is not among its parameters: the call raises
`TypeError` before building any prompt, the outer `except` returns
`None`, and nothing past that line in the branch (including the
format-preservation append at lines 202-203) is reachable.  On the path
where generation and upload succeed, the session document is written
(`committed = true`) and the chat history is updated, but building the
response metadata then reads `session.user_id` — not a declared field of
`VirtualStaging` — so `AttributeError` is raised and the call still
returns `None`. -/
def generate_staging (env : GenEnv) (now : Nat) (store : Store)
    (chats : ChatStore) (args : GenerateArgs) : GenerateResult :=
  match Store.get store args.session_id with
  | none => ⟨none, store, chats, [], 0, none, none, false⟩
  | some session =>
    let image_url :=
      if optTruthy args.image_path_override then args.image_path_override
      else pyOr session.current_image_url session.original_image_url
    if !(optTruthy image_url) then ⟨none, store, chats, [], 0, none, none, false⟩
    else
      let iu := image_url.getD ""
      if !(startsWithHttp iu) && (env.fs iu).isNone then
        ⟨none, store, chats, [], 0, none, none, false⟩
      else
        let params := args.staging_parameters <|> session.current_parameters
        if optTruthy args.custom_prompt then
          let c := args.custom_prompt.getD ""
          let prompt :=
            if optTruthy args.mask_image_url then c ++ maskInstructionCustom else c
          match firstTruthy session.current_image_path session.current_image_url
              session.original_image_path session.original_image_url with
          | none => ⟨none, store, chats, [], 0, none, none, false⟩
          | some img =>
            if !(startsWithHttp img) then ⟨none, store, chats, [], 0, none, none, false⟩
            else
              let call : GeminiCall := ⟨prompt, img, args.mask_image_url⟩
              match env.api call with
              | none => ⟨none, store, chats, [call], 0, none, none, false⟩
              | some bytes =>
                if bytes = "" then ⟨none, store, chats, [call], 0, none, none, false⟩
                else
                  let up := env.upload bytes
                    ("generated_" ++ args.session_id ++ "_v" ++
                      toString (session.version + 1) ++ ".png")
                    ("staging/" ++ args.session_id)
                  if !up.success then ⟨none, store, chats, [call], 1, none, none, false⟩
                  else
                    let entry : HistEntry :=
                      { timestamp := now, image_key := some up.key,
                        prompt := some prompt, parameters := params,
                        saved := some false }
                    let session' := { session with
                      current_image_path := none,
                      current_image_key := some up.key,
                      current_image_url := some up.url,
                      current_parameters := params,
                      current_prompt := some prompt,
                      updated_at := now,
                      generation_history := session.generation_history ++ [entry] }
                    let store' := Store.put store args.session_id session'
                    let chatRes : Option ChatStore :=
                      if optTruthy session.chat_history_id then
                        let hid := session.chat_history_id.getD ""
                        if optTruthy args.user_message then
                          match ChatStore.get chats hid with
                          | none => none
                          | some _ =>
                            some (ChatStore.addMessage (ChatStore.addMessage chats hid) hid)
                        else some (ChatStore.addMessage chats hid)
                      else some chats
                    match chatRes with
                    | none =>
                      ⟨none, store', chats, [call], 1, some up.url, some up.key, true⟩
                    | some chats' =>
                      let response :=
                        if virtualStagingFields.contains "user_id" &&
                            virtualStagingFields.contains "room_name" then
                          some (⟨up.url, prompt, !session'.saved_versions.isEmpty⟩ :
                            StagingResponsePayload)
                        else none
                      ⟨response, store', chats', [call], 1, some up.url, some up.key, true⟩
        else
          match params with
          | some _ => ⟨none, store, chats, [], 0, none, none, false⟩
          | none => ⟨none, store, chats, [], 0, none, none, false⟩

/-- `SaveChangeResponse` (src/models/virtual_staging_response.py), the
fields `save_change` fills. -/
structure SaveChangeResponse where
  success : Bool
  version : Nat
  message : String
  image_url : String
  saved_at : Nat
  deriving Repr, DecidableEq

/-- Outcome of one `save_change` call. -/
structure SaveResult where
  response : Option SaveChangeResponse
  store : Store
  uploads : Nat

/-- The in-place mutation of the most recent generation-history entry
performed by `save_change` (src/service/virtual_staging_service.py lines
375-379): `saved`, `saved_at`, `aws_key`, `aws_url` on the last entry. -/
def markLastSaved (now : Nat) (k u : String) : List HistEntry → List HistEntry
  | [] => []
  | [e] => [{ e with
      saved := some true,
      saved_at := some now,
      aws_key := some k,
      aws_url := some u }]
  | e :: rest => e :: markLastSaved now k u rest

/-- `VirtualStagingService.save_change`
(src/service/virtual_staging_service.py lines 314-400).  The working
image is read from `session.current_image_path` on the local file system
(`not session.current_image_path or not os.path.exists(...)` → `None`,
no mutation); `current_image_url` is never consulted.  The `except`
branch (a `success=False` response) is reachable only via exceptions of
the collaborators and is not modelled. -/
def save_change (env : GenEnv) (now : Nat) (store : Store)
    (session_id : String) : SaveResult :=
  match Store.get store session_id with
  | none => ⟨none, store, 0⟩
  | some session =>
    match session.current_image_path with
    | none => ⟨none, store, 0⟩
    | some p =>
      if p = "" then ⟨none, store, 0⟩
      else match env.fs p with
      | none => ⟨none, store, 0⟩
      | some image_bytes =>
        let new_version := session.version + 1
        let up := env.upload image_bytes
          ("v" ++ toString new_version ++ "_" ++ session_id ++ ".png")
          ("staging/" ++ session_id ++ "/versions")
        if !up.success then ⟨none, store, 1⟩
        else
          let image_version : ImageVersion :=
            { version_number := new_version, image_key := up.key,
              image_url := up.url,
              prompt_used := (pyOr session.current_prompt (some "")).getD "",
              parameters := session.current_parameters.getD {},
              is_saved := true, created_at := now, saved_at := some now }
          let session' := { session with
            saved_versions := session.saved_versions ++ [image_version],
            version := new_version,
            last_saved_version := new_version,
            updated_at := now,
            generation_history :=
              markLastSaved now up.key up.url session.generation_history }
          ⟨some ⟨true, new_version,
             "Version " ++ toString new_version ++ " saved successfully to AWS",
             up.url, now⟩,
           Store.put store session_id session', 1⟩

/-- `RevertChangeResponse`, the fields `revert_change` fills. -/
structure RevertChangeResponse where
  success : Bool
  version : Nat
  message : String
  image_url : String
  reverted_at : Nat
  deriving Repr, DecidableEq

/-- `VirtualStagingService.revert_change`
(src/service/virtual_staging_service.py lines 402-470): looks the version
up in `saved_versions`, makes it the current working version and appends
a `revert` entry to the generation history. -/
def revert_change (now : Nat) (store : Store) (session_id : String)
    (version_to_revert_to : Nat) : Option RevertChangeResponse × Store :=
  match Store.get store session_id with
  | none => (none, store)
  | some session =>
    match session.saved_versions.find?
        (fun v => v.version_number == version_to_revert_to) with
    | none =>
      (some ⟨false, session.version,
        "Version " ++ toString version_to_revert_to ++ " not found",
        (pyOr session.current_image_url (some "")).getD "", now⟩, store)
    | some tv =>
      let entry : HistEntry :=
        { timestamp := now, action := some "revert",
          reverted_to_version := some version_to_revert_to,
          image_key := some tv.image_key, image_url := some tv.image_url }
      let session' := { session with
        current_image_key := some tv.image_key,
        current_image_url := some tv.image_url,
        current_parameters := some tv.parameters,
        current_prompt := some tv.prompt_used,
        updated_at := now,
        generation_history := session.generation_history ++ [entry] }
      (some ⟨true, version_to_revert_to,
        "Reverted to version " ++ toString version_to_revert_to ++ " successfully",
        tv.image_url, now⟩,
       Store.put store session_id session')

/-- `VirtualStagingService.refine_staging`
(src/service/virtual_staging_service.py lines 586-750): after fetching
the session and the read-only chat context it calls
`build_staging_prompt` with the keyword `furniture_theme` (line 646),
which the callee does not accept (`bindOk buildStagingPromptParams
buildStagingPromptDefaults serviceBuildPromptKwargs = false`): `TypeError`
is raised before any session write, file write, Generation-Client call or
history append, the rest of the body is unreachable, and the outer
`except` returns `None`. -/
def refine_staging (store : Store) (session_id : String) : Option Unit × Store :=
  match Store.get store session_id with
  | none => (none, store)
  | some _ => (none, store)

/-- One image record of a property document, as read by the controllers
(`img.url`, `img.filename`, `img.id`, `img.imageType`). -/
structure PropertyImage where
  id : String := ""
  url : String
  filename : String := ""
  imageType : String
  deriving Repr, DecidableEq

/-- The part of a property document the staging controllers read. -/
structure PropertyRec where
  images : List PropertyImage
  deriving Repr, DecidableEq

/-- The property collection. -/
abbrev PropStore := List (String × PropertyRec)

def PropStore.get : PropStore → String → Option PropertyRec
  | [], _ => none
  | (k, v) :: rest, pid => if k = pid then some v else PropStore.get rest pid

/-- The state visible to the HTTP layer. -/
structure WebEnv where
  props : PropStore
  store : Store
  chats : ChatStore

/-- An HTTP handler outcome: status code, state afterwards, and the
Generation-Client requests made while handling. -/
structure HttpOutcome where
  status : Nat
  state : WebEnv
  calls : List GeminiCall

/-- Parameters of `VirtualStagingService.generate_staging`
(src/service/virtual_staging_service.py lines 131-137). -/
def generateStagingParamsSvc : List String :=
  ["session_id", "staging_parameters", "custom_prompt", "mask_image_url",
   "user_message", "image_path_override"]

/-- Parameters of `generate_staging` that carry defaults (all but
`session_id`). -/
def generateStagingDefaultsSvc : List String :=
  ["staging_parameters", "custom_prompt", "mask_image_url", "user_message",
   "image_path_override"]

/-- Keywords used at the controller call site of `generate_staging`
(src/controllers/virtual_staging_controller.py lines 242-249):
`image_index` is passed although the service method has no such
parameter. -/
def controllerGenerateKwargs : List String :=
  ["session_id", "image_index", "staging_parameters", "custom_prompt",
   "mask_image_url", "user_message"]

/-- Parameters of `create_staging_session_from_s3`
(src/service/virtual_staging_service.py lines 36-42); none has a
default. -/
def createSessionParamsSvc : List String :=
  ["session_id", "property_id", "user_id", "room_name",
   "original_image_url", "staging_parameters"]

/-- Keywords used at the controller call site of
`create_staging_session_from_s3`
(src/controllers/virtual_staging_controller.py lines 137-143):
`panoramic_images` is not a parameter of the service method, and the
required `user_id` and `room_name` are not supplied. -/
def controllerCreateKwargs : List String :=
  ["session_id", "property_id", "original_image_url", "panoramic_images",
   "staging_parameters"]

/-- The form fields the `/generate` controller reads. -/
structure GenerateForm where
  session_id : Option String := none
  custom_prompt : Option String := none
  user_message : Option String := none
  image_index : Option Int := none
  style : Option String := none
  furniture_theme : Option String := none
  color_scheme : Option String := none
  specific_request : Option String := none
  role : Option String := none

/-- The `POST /api/virtual-staging/generate` handler
(src/controllers/virtual_staging_controller.py lines 160-270).

The module declares `_generation_locks` (lines 20-22) and the body
carries the comment "Acquire lock for this session - only one generation
at a time" (line 183), but no lock is ever acquired and no busy/conflict
response exists on any path.

After all validations pass, the handler calls
`vs_service.generate_staging` with the keyword `image_index`, which the
service method does not accept: keyword binding fails
(`bindOk generateStagingParamsSvc generateStagingDefaultsSvc
controllerGenerateKwargs = false`), `TypeError` is raised at the call
site before the service body runs, and the `except` handler returns 500.
The guarded branch below shows the call as it would bind without the
stray keyword; it is unreachable.

The `StagingParameters` constructed at lines 233-239 passes the keyword
`specific_request`, which the model does not declare (the field is
`specific_requests`); pydantic v2 silently drops it, so the field stays
`None`. -/
def generate_staging_handler (genv : GenEnv) (now : Nat) (env : WebEnv)
    (form : GenerateForm) : HttpOutcome :=
  if !(optTruthy form.session_id) then ⟨400, env, []⟩
  else
    let sid := form.session_id.getD ""
    if !(optTruthy form.custom_prompt) || pyStrip (form.custom_prompt.getD "") = ""
    then ⟨400, env, []⟩
    else match form.image_index with
    | none => ⟨400, env, []⟩
    | some idx =>
      match Store.get env.store sid with
      | none => ⟨404, env, []⟩
      | some session =>
        match PropStore.get env.props session.property_id with
        | none => ⟨404, env, []⟩
        | some property =>
          let pans := property.images.filter (fun i => i.imageType == "panoramic")
          if pans.isEmpty then ⟨400, env, []⟩
          else if idx < 0 || (pans.length : Int) ≤ idx then ⟨400, env, []⟩
          else
            if bindOk generateStagingParamsSvc generateStagingDefaultsSvc
                controllerGenerateKwargs then
              let r := generate_staging genv now env.store env.chats
                { session_id := sid,
                  staging_parameters := some
                    { role := form.role.getD "professional interior designer",
                      style := form.style,
                      furniture_style := form.furniture_theme,
                      color_scheme := form.color_scheme },
                  custom_prompt := form.custom_prompt,
                  mask_image_url := none,
                  user_message := form.user_message }
              match r.response with
              | none => ⟨500, { env with store := r.store, chats := r.chats }, r.calls⟩
              | some _ => ⟨200, { env with store := r.store, chats := r.chats }, r.calls⟩
            else ⟨500, env, []⟩

/-- The form fields the `/session` (create) controller reads. -/
structure CreateForm where
  property_id : Option String := none
  role : Option String := none

/-- The `POST /api/virtual-staging/session` handler
(src/controllers/virtual_staging_controller.py lines 94-157).  After the
property is found and has at least one panoramic image, the handler calls
`create_staging_session_from_s3` with the keyword `panoramic_images`
(not a parameter of the service method) and without the required
`user_id` and `room_name`: keyword binding fails
(`bindOk createSessionParamsSvc [] controllerCreateKwargs = false`),
`TypeError` is raised at the call site before the service body runs —
so neither a session document nor a chat history is written — and the
`except` handler returns 500. -/
def create_session_handler (env : WebEnv) (form : CreateForm) : HttpOutcome :=
  if !(optTruthy form.property_id) then ⟨400, env, []⟩
  else
    let pid := form.property_id.getD ""
    match PropStore.get env.props pid with
    | none => ⟨404, env, []⟩
    | some property =>
      let pans := property.images.filter (fun i => i.imageType == "panoramic")
      if pans.isEmpty then ⟨400, env, []⟩
      else ⟨500, env, []⟩

/-- The `POST /api/virtual-staging/session/<session_id>/save-change`
handler (src/controllers/virtual_staging_controller.py lines 514-552):
404 when the session is absent, 400 when `session.current_image_url` is
falsy, otherwise it calls `save_change` and maps a missing or
unsuccessful response to 500. -/
def save_session_change_handler (genv : GenEnv) (now : Nat) (store : Store)
    (session_id : String) : Nat × Store :=
  match Store.get store session_id with
  | none => (404, store)
  | some session =>
    if !(optTruthy session.current_image_url) then (400, store)
    else
      let r := save_change genv now store session_id
      match r.response with
      | none => (500, r.store)
      | some resp => if resp.success then (200, r.store) else (500, r.store)

/-! ## Operation sequences over the session store

`Op` is one Session Service call against an existing session: `generate`,
`refine`, `save` or `revert` (session creation writes a fresh document and
deletion removes it; neither mutates the generation history of an
existing session).  `runOps` threads the session and chat stores through
a sequence of such calls. -/

inductive Op where
  | generate (env : GenEnv) (now : Nat) (args : GenerateArgs)
  | refine (session_id : String)
  | save (env : GenEnv) (now : Nat) (session_id : String)
  | revert (now : Nat) (session_id : String) (version : Nat)

def stepOp (s : Store × ChatStore) (op : Op) : Store × ChatStore :=
  match op with
  | .generate env now args =>
    let r := generate_staging env now s.1 s.2 args
    (r.store, r.chats)
  | .refine sid => ((refine_staging s.1 sid).2, s.2)
  | .save env now sid => ((save_change env now s.1 sid).store, s.2)
  | .revert now sid v => ((revert_change now s.1 sid v).2, s.2)

def runOps : Store × ChatStore → List Op → Store × ChatStore
  | s, [] => s
  | s, op :: ops => runOps (stepOp s op) ops

/-- Whether the operation is a generate or refine call against `sid`
that succeeds: for generate, the session document was written
(`committed`); for refine, a response was returned (which never happens,
see `refine_staging`). -/
def Op.commitsFor (op : Op) (s : Store × ChatStore) (sid : String) : Bool :=
  match op with
  | .generate env now args =>
    (generate_staging env now s.1 s.2 args).committed && (args.session_id == sid)
  | .refine sid' => ((refine_staging s.1 sid').1).isSome && (sid' == sid)
  | _ => false

/-- Number of successful generate/refine calls against `sid` along a run. -/
def commitCount : Store × ChatStore → List Op → String → Nat
  | _, [], _ => 0
  | s, op :: ops, sid =>
    (if op.commitsFor s sid then 1 else 0) + commitCount (stepOp s op) ops sid

/-- The generation history of session `sid` in the store (empty when the
session does not exist). -/
def historyAt (st : Store) (sid : String) : List HistEntry :=
  match Store.get st sid with
  | some s => s.generation_history
  | none => []

/-- `needle` occurs as a contiguous substring of `hay`. -/
def containsClause (needle hay : String) : Prop :=
  needle.data <:+: hay.data

/-! ## Concrete fixtures used by counterexamples and witnesses -/

/-- A blob-store result representing a successful upload. -/
def okUpload : UploadResult := ⟨true, "https://img/U", "K1"⟩

/-- Collaborators that all succeed. -/
def envOK : GenEnv :=
  { fs := fun _ => none,
    api := fun _ => some "B1",
    upload := fun _ _ _ => okUpload }

/-- Collaborators whose Generation Client always fails (raises or
returns nothing). -/
def envApiFail : GenEnv := { envOK with api := fun _ => none }

/-- Collaborators whose blob store always fails. -/
def envUpFail : GenEnv := { envOK with upload := fun _ _ _ => ⟨false, "", ""⟩ }

/-- A fresh session over a two-panorama property, no working image yet. -/
def sessA : VirtualStaging :=
  { session_id := "s1", property_id := "p1",
    panoramic_images := ["https://img/A", "https://img/B"],
    original_image_url := some "https://img/A",
    orignal_image_key := some "A.png",
    chat_history_id := some "chat_s1" }

def storeA : Store := [("s1", sessA)]

def chatsA : ChatStore := [("chat_s1", 0)]

/-- A generate request with a custom prompt and no mask. -/
def argsSofa : GenerateArgs :=
  { session_id := "s1", custom_prompt := some "Add a sofa",
    staging_parameters := some {} }

/-- One fully successful generate run against `sessA`. -/
def runSofa : GenerateResult := generate_staging envOK 7 storeA chatsA argsSofa

/-- `sessA` with an unsaved S3 working image. -/
def sessW : VirtualStaging := { sessA with current_image_url := some "https://img/W" }

def storeW : Store := [("s1", sessW)]

/-- A generate run whose session already has a working image. -/
def runW : GenerateResult := generate_staging envOK 7 storeW chatsA argsSofa

/-- A generate request carrying a mask. -/
def argsMask : GenerateArgs :=
  { session_id := "s1", custom_prompt := some "Add a sofa",
    mask_image_url := some "https://img/mask", staging_parameters := some {} }

/-- A masked generate run against `sessA`. -/
def runMask : GenerateResult := generate_staging envOK 7 storeA chatsA argsMask

/-- A generate request with parameters but no custom prompt (the
template branch). -/
def argsTemplate : GenerateArgs := { session_id := "s1", staging_parameters := some {} }

/-- A template-branch generate run against `sessA`. -/
def runTemplate : GenerateResult := generate_staging envOK 7 storeA chatsA argsTemplate

/-- The session state `refine_staging` used to produce before the S3
migration: a local working file recorded in `current_image_path`, no S3
working URL. -/
def sessLocal : VirtualStaging :=
  { session_id := "s2", property_id := "p1",
    current_image_path := some "uploads/generated_s2_v1.png",
    current_prompt := some "refine prompt",
    generation_history :=
      [{ timestamp := 3, image_key := none,
         image_path := some "uploads/generated_s2_v1.png",
         prompt := some "refine prompt", saved := some false }] }

def storeLocal : Store := [("s2", sessLocal)]

/-- Collaborators for the local-file states: the file system holds the
working file. -/
def envLocal : GenEnv :=
  { fs := fun p => if p == "uploads/generated_s2_v1.png" then some "LOCALBYTES" else none,
    api := fun _ => some "B1",
    upload := fun _ _ _ => okUpload }

/-- A session holding both a working URL and a working local file, with a
nonempty generation history. -/
def sessBoth : VirtualStaging :=
  { sessLocal with session_id := "s3", current_image_url := some "https://img/W" }

def storeBoth : Store := [("s3", sessBoth)]

/-- A save run that succeeds (local working file present). -/
def runSaveBoth : SaveResult := save_change envLocal 9 storeBoth "s3"

/-- The response `runSaveBoth` returns. -/
def respBoth : SaveChangeResponse :=
  ⟨true, 1, "Version 1 saved successfully to AWS", "https://img/U", 9⟩

/-- A property document with two panoramic images. -/
def propP : PropertyRec :=
  { images := [⟨"i1", "https://img/A", "a.png", "panoramic"⟩,
               ⟨"i2", "https://img/B", "b.png", "panoramic"⟩] }

/-- HTTP-layer state holding `propP`, `sessA` and its chat history. -/
def webEnvA : WebEnv := { props := [("p1", propP)], store := storeA, chats := chatsA }

/-- A `/generate` form that passes every controller-level validation. -/
def formA : GenerateForm :=
  { session_id := some "s1", custom_prompt := some "Add a sofa", image_index := some 1 }

/-- A `/session` (create) form naming the existing property. -/
def createFormA : CreateForm := { property_id := some "p1" }

/-! ## Lemmas about the stores and the history mutation -/

theorem Store.get_put_self (st : Store) (sid : String) (v : VirtualStaging) :
    (st.put sid v).get sid = some v := by
  induction st with
  | nil => simp [Store.put, Store.get]
  | cons hd tl ih =>
    obtain ⟨k, w⟩ := hd
    by_cases h : k = sid <;> simp [Store.put, Store.get, h, ih]

theorem Store.get_put_ne (st : Store) (sid sid' : String) (v : VirtualStaging)
    (h : sid ≠ sid') : (st.put sid v).get sid' = st.get sid' := by
  induction st with
  | nil => simp [Store.put, Store.get, h]
  | cons hd tl ih =>
    obtain ⟨k, w⟩ := hd
    by_cases hk : k = sid
    · subst hk
      simp [Store.put, Store.get, h]
    · simp [Store.put, Store.get, hk, ih]

theorem markLastSaved_map_core (now : Nat) (k u : String) :
    ∀ h : List HistEntry, (markLastSaved now k u h).map HistEntry.core = h.map HistEntry.core
  | [] => rfl
  | [e] => rfl
  | e :: e' :: rest => by
    simp [markLastSaved, markLastSaved_map_core now k u (e' :: rest)]

theorem markLastSaved_length (now : Nat) (k u : String) :
    ∀ h : List HistEntry, (markLastSaved now k u h).length = h.length
  | [] => rfl
  | [e] => rfl
  | e :: e' :: rest => by
    simp [markLastSaved, markLastSaved_length now k u (e' :: rest)]

theorem markLastSaved_getLast_saved (now : Nat) (k u : String) :
    ∀ h : List HistEntry, h ≠ [] →
      ((markLastSaved now k u h).getLast?).map HistEntry.saved = some (some true)
  | [], hne => absurd rfl hne
  | [e], _ => rfl
  | e :: e' :: rest, _ => by
    have ih := markLastSaved_getLast_saved now k u (e' :: rest) (by simp)
    cases hm : markLastSaved now k u (e' :: rest) with
    | nil => simp [hm] at ih
    | cons x xs =>
      simp only [markLastSaved, hm, List.getLast?_cons_cons] at ih ⊢
      exact ih

theorem String.data_app (s t : String) : (s ++ t).data = s.data ++ t.data := rfl

set_option maxHeartbeats 2000000 in
theorem generate_staging_historyAt (env : GenEnv) (now : Nat) (store : Store)
    (chats : ChatStore) (args : GenerateArgs) (r : GenerateResult)
    (hr : generate_staging env now store chats args = r) (sid : String) :
    (args.session_id ≠ sid → historyAt r.store sid = historyAt store sid) ∧
    (r.committed = false → r.store = store) ∧
    (r.committed = true → args.session_id = sid →
      ∃ e, historyAt r.store sid = historyAt store sid ++ [e]) := by
  unfold generate_staging at hr
  dsimp only at hr
  repeat' split at hr
  all_goals subst hr
  all_goals try exact ⟨fun _ => rfl, fun _ => rfl, fun hc => (Bool.false_ne_true hc).elim⟩
  all_goals refine ⟨fun hne => by simp [historyAt, Store.get_put_ne _ _ _ _ hne],
                    fun hc => Bool.noConfusion hc, fun _ hsid => ?_⟩
  all_goals subst hsid
  all_goals simp only [historyAt, Store.get_put_self,
    ‹Store.get store args.session_id = some _›]
  all_goals exact ⟨_, rfl⟩

theorem save_change_historyAt (env : GenEnv) (now : Nat) (store : Store)
    (sid' : String) (r : SaveResult) (hr : save_change env now store sid' = r)
    (sid : String) :
    (historyAt r.store sid).map HistEntry.core = (historyAt store sid).map HistEntry.core ∧
    (historyAt r.store sid).length = (historyAt store sid).length := by
  unfold save_change at hr
  dsimp only at hr
  repeat' split at hr
  all_goals subst hr
  all_goals try exact ⟨rfl, rfl⟩
  all_goals by_cases hs : sid' = sid
  · subst hs
    constructor
    · simp only [historyAt, Store.get_put_self, ‹Store.get store sid' = some _›]
      exact markLastSaved_map_core _ _ _ _
    · simp only [historyAt, Store.get_put_self, ‹Store.get store sid' = some _›]
      exact markLastSaved_length _ _ _ _
  · simp [historyAt, Store.get_put_ne _ _ _ _ hs]

theorem revert_change_historyAt (now : Nat) (store : Store) (sid' : String)
    (v : Nat) (r : Option RevertChangeResponse × Store)
    (hr : revert_change now store sid' v = r) (sid : String) :
    historyAt r.2 sid = historyAt store sid ∨
    ∃ e, historyAt r.2 sid = historyAt store sid ++ [e] := by
  unfold revert_change at hr
  dsimp only at hr
  repeat' split at hr
  all_goals subst hr
  all_goals try exact Or.inl rfl
  all_goals by_cases hs : sid' = sid
  · subst hs
    refine Or.inr ?_
    simp only [historyAt, Store.get_put_self, ‹Store.get store sid' = some _›]
    exact ⟨_, rfl⟩
  · exact Or.inl (by simp [historyAt, Store.get_put_ne _ _ _ _ hs])

theorem refine_staging_inert (store : Store) (sid : String) :
    (refine_staging store sid).2 = store ∧
    ((refine_staging store sid).1).isSome = false := by
  unfold refine_staging
  split <;> exact ⟨rfl, rfl⟩

theorem stepOp_history (op : Op) (s : Store × ChatStore) (sid : String) :
    ((historyAt s.1 sid).map HistEntry.core <+:
      (historyAt (stepOp s op).1 sid).map HistEntry.core) ∧
    (historyAt s.1 sid).length + (if op.commitsFor s sid then 1 else 0) ≤
      (historyAt (stepOp s op).1 sid).length := by
  cases op with
  | generate env now args =>
    obtain ⟨h1, h2, h3⟩ := generate_staging_historyAt env now s.1 s.2 args _ rfl sid
    simp only [stepOp, Op.commitsFor]
    by_cases hc : (generate_staging env now s.1 s.2 args).committed = true
    · by_cases hs : args.session_id = sid
      · obtain ⟨e, he⟩ := h3 hc hs
        constructor
        · rw [he, List.map_append]
          exact List.prefix_append _ _
        · rw [he]
          simp [hc, hs]
      · rw [h1 hs]
        have : (args.session_id == sid) = false := by simp [hs]
        simp [this]
    · have hfalse : (generate_staging env now s.1 s.2 args).committed = false :=
        Bool.eq_false_iff.mpr hc
      rw [h2 hfalse]
      simp [hfalse]
  | refine sid' =>
    obtain ⟨h1, h2⟩ := refine_staging_inert s.1 sid'
    simp only [stepOp, Op.commitsFor]
    rw [h1]
    simp [h2]
  | save env now sid' =>
    obtain ⟨h1, h2⟩ := save_change_historyAt env now s.1 sid' _ rfl sid
    simp only [stepOp, Op.commitsFor]
    constructor
    · rw [h1]
    · simp [h2]
  | revert now sid' v =>
    rcases revert_change_historyAt now s.1 sid' v _ rfl sid with h | ⟨e, he⟩
    · simp only [stepOp, Op.commitsFor]
      rw [h]
      simp
    · simp only [stepOp, Op.commitsFor]
      rw [he, List.map_append]
      refine ⟨List.prefix_append _ _, ?_⟩
      simp

/-! ## Claim theorems -/

/-- C1 counterexample: a generate call that commits (generation and
upload succeed, the session document is written) leaves
`panoramic_images` untouched, so afterwards `panoramic_images[i]` differs
from `current_image_url` for every index `i` — the claimed eager
overwrite `panoramic_images[i] == current_image_urls[i] ==
current_image_url` does not happen; moreover the model declares no
`current_image_urls` field at all. -/
theorem c1_eager_overwrite_counterexample :
    runSofa.committed = true ∧
    (runSofa.store.get "s1").map VirtualStaging.panoramic_images =
      some ["https://img/A", "https://img/B"] ∧
    ((runSofa.store.get "s1").bind VirtualStaging.current_image_url) = some "https://img/U" ∧
    "https://img/U" ∉ (["https://img/A", "https://img/B"] : List String) ∧
    virtualStagingFields.contains "current_image_urls" = false := by
  refine ⟨rfl, rfl, rfl, ?_, rfl⟩
  decide

set_option maxHeartbeats 2000000 in
/-- C1 (amended): after a generate call that commits, the stored session
holds the newly uploaded image URL and key in `current_image_url` /
`current_image_key`, while `panoramic_images` and `current_image_index`
are unchanged; the call still returns no response because building the
response metadata reads `session.user_id`, which the model does not
declare. -/
theorem c1_generate_updates_working_pointer_only (env : GenEnv) (now : Nat)
    (store : Store) (chats : ChatStore) (args : GenerateArgs)
    (r : GenerateResult)
    (hr : generate_staging env now store chats args = r)
    (h : r.committed = true) :
    (Store.get store args.session_id).isSome = true ∧
    ∀ session, Store.get store args.session_id = some session →
      ∃ session',
        r.store = Store.put store args.session_id session' ∧
        session'.panoramic_images = session.panoramic_images ∧
        session'.current_image_index = session.current_image_index ∧
        session'.current_image_url = r.uploadedUrl ∧
        session'.current_image_key = r.uploadedKey ∧
        r.uploadedUrl.isSome = true ∧
        r.response = none := by
  unfold generate_staging at hr
  dsimp only at hr
  repeat' split at hr
  all_goals subst hr
  all_goals try exact (Bool.false_ne_true h).elim
  all_goals try exact absurd ‹(virtualStagingFields.contains "user_id" && virtualStagingFields.contains "room_name") = true› (by decide)
  all_goals refine ⟨by simp [*], ?_⟩
  all_goals rw [‹Store.get store args.session_id = some _›]
  all_goals intro ses hses
  all_goals injection hses with hses2
  all_goals subst hses2
  all_goals exact ⟨_, rfl, rfl, rfl, rfl, rfl, rfl, rfl⟩

/-- C1 witness: the amended theorem applied to the concrete committed run
`runSofa`. -/
theorem c1_generate_updates_working_pointer_only_witness :
    ∃ session',
      runSofa.store = Store.put storeA "s1" session' ∧
      session'.panoramic_images = sessA.panoramic_images ∧
      session'.current_image_index = sessA.current_image_index ∧
      session'.current_image_url = runSofa.uploadedUrl ∧
      session'.current_image_key = runSofa.uploadedKey ∧
      runSofa.uploadedUrl.isSome = true ∧
      runSofa.response = none :=
  (c1_generate_updates_working_pointer_only envOK 7 storeA chatsA argsSofa
    runSofa rfl rfl).2 sessA rfl

/-- C2 (code bug): `save_change` tests `session.current_image_path` (a
local file of the pre-S3 revision) instead of `current_image_url`.  On
the state a successful S3 generate leaves (`current_image_url` set,
`current_image_path` cleared), save fails with no mutation and the
`save-change` endpoint returns 500 even though its own validation of
`current_image_url` passed; conversely, on a refine-shaped state whose
`current_image_url` is null but whose local working file exists, save
succeeds and mutates the session. -/
theorem c2_save_reads_stale_local_path :
    ((runSofa.store.get "s1").bind VirtualStaging.current_image_url) = some "https://img/U" ∧
    ((runSofa.store.get "s1").bind VirtualStaging.current_image_path) = none ∧
    (save_change envOK 8 runSofa.store "s1").response = none ∧
    (save_change envOK 8 runSofa.store "s1").store = runSofa.store ∧
    (save_session_change_handler envOK 8 runSofa.store "s1").1 = 500 ∧
    sessLocal.current_image_url = none ∧
    ((save_change envLocal 9 storeLocal "s2").response.map SaveChangeResponse.success) =
      some true ∧
    ((save_change envLocal 9 storeLocal "s2").store.get "s2") ≠ some sessLocal := by
  refine ⟨rfl, rfl, rfl, rfl, rfl, rfl, rfl, ?_⟩
  decide

/-- C3 (code bug): the `/generate` handler holds no lock — the module
declares `_generation_locks` but never acquires it — and has no
busy/conflict response on any path: for every request and state it
returns 400, 404 or 500, leaves the state untouched, and never reaches
the Generation Client. -/
theorem c3_generate_handler_never_returns_busy (genv : GenEnv) (now : Nat)
    (env : WebEnv) (form : GenerateForm) :
    ((generate_staging_handler genv now env form).status = 400 ∨
     (generate_staging_handler genv now env form).status = 404 ∨
     (generate_staging_handler genv now env form).status = 500) ∧
    (generate_staging_handler genv now env form).state = env ∧
    (generate_staging_handler genv now env form).calls = [] := by
  unfold generate_staging_handler
  dsimp only
  repeat' split
  all_goals try exact absurd ‹bindOk generateStagingParamsSvc generateStagingDefaultsSvc controllerGenerateKwargs = true› (by decide)
  all_goals exact ⟨by simp, rfl, rfl⟩

/-- C4 counterexample: for a session with no working image,
panoramas `[A, B]` and original image `A`, the image handed to the
Generation Client is `A` — the session's original image — and not
`panoramic_images[1] = B`, although the generate request targeted
index 1 (`formA`); no per-index selection exists in the service. -/
theorem c4_panorama_index_selection_counterexample :
    sessA.current_image_path = none ∧ sessA.current_image_url = none ∧
    sessA.panoramic_images[1]? = some "https://img/B" ∧
    runSofa.calls.map GeminiCall.image = ["https://img/A"] ∧
    ("https://img/A" : String) ≠ "https://img/B" := by
  refine ⟨rfl, rfl, rfl, rfl, by decide⟩

set_option maxHeartbeats 2000000 in
/-- C4 (amended): the image handed to the Generation Client is the
session's working image (`current_image_url`, when set and no local
working path exists) and otherwise the session's original image —
`panoramic_images[target_index]` is never consulted. -/
theorem c4_source_image_selection :
    (∀ (env : GenEnv) (now : Nat) (store : Store) (chats : ChatStore)
        (args : GenerateArgs) (r : GenerateResult) (session : VirtualStaging) (u : String),
        generate_staging env now store chats args = r →
        Store.get store args.session_id = some session →
        session.current_image_path = none →
        session.current_image_url = some u → u ≠ "" →
        r.calls ≠ [] → r.calls.map GeminiCall.image = [u]) ∧
    (∀ (env : GenEnv) (now : Nat) (store : Store) (chats : ChatStore)
        (args : GenerateArgs) (r : GenerateResult) (session : VirtualStaging) (o : String),
        generate_staging env now store chats args = r →
        Store.get store args.session_id = some session →
        session.current_image_path = none →
        session.current_image_url = none →
        session.original_image_path = none →
        session.original_image_url = some o →
        r.calls ≠ [] → r.calls.map GeminiCall.image = [o]) := by
  constructor
  · intro env now store chats args r session u hr hget hpath hurl hune hne
    unfold generate_staging at hr
    dsimp only at hr
    repeat' split at hr
    all_goals subst hr
    all_goals try exact absurd rfl hne
    all_goals simp_all [firstTruthy, pyOr, optTruthy]
  · intro env now store chats args r session o hr hget hpath hurl hopath hourl hne
    unfold generate_staging at hr
    dsimp only at hr
    repeat' split at hr
    all_goals subst hr
    all_goals try exact absurd rfl hne
    all_goals simp_all [firstTruthy, pyOr, optTruthy]

/-- C4 witness: the amended theorem applied to a session with a working
image (generation continues from it) and to `sessA` (generation starts
from the original image). -/
theorem c4_source_image_selection_witness :
    runW.calls.map GeminiCall.image = ["https://img/W"] ∧
    runSofa.calls.map GeminiCall.image = ["https://img/A"] :=
  ⟨c4_source_image_selection.1 envOK 7 storeW chatsA argsSofa runW sessW
      "https://img/W" rfl rfl rfl rfl (by decide) (by decide),
   c4_source_image_selection.2 envOK 7 storeA chatsA argsSofa runSofa sessA
      "https://img/A" rfl rfl rfl rfl rfl rfl (by decide)⟩

set_option maxRecDepth 4096 in
/-- C5 counterexample: a generate call with the custom prompt
"Add a sofa" and no mask sends exactly that string to the Generation
Client; the fixed format-preservation clause is not contained in it. -/
theorem c5_format_preservation_counterexample :
    runSofa.calls.map GeminiCall.prompt = ["Add a sofa"] ∧
    ¬ containsClause formatPreservation "Add a sofa" := by
  refine ⟨rfl, ?_⟩
  intro h
  have h1 := h.length_le
  have h2 : ("Add a sofa" : String).data.length < formatPreservation.data.length := by
    decide
  omega

set_option maxHeartbeats 2000000 in
/-- C5 (amended): a caller-supplied custom prompt is sent verbatim, with
the mask clause appended exactly when a mask is supplied; when no custom
prompt is given (the template branch), `build_staging_prompt` is called
with the keyword `furniture_theme`, the binding fails, and no prompt —
in particular none containing the format-preservation clause — ever
reaches the Generation Client. -/
theorem c5_prompt_construction :
    (∀ (env : GenEnv) (now : Nat) (store : Store) (chats : ChatStore)
        (args : GenerateArgs) (r : GenerateResult) (c : String),
        generate_staging env now store chats args = r →
        args.custom_prompt = some c → c ≠ "" →
        optTruthy args.mask_image_url = false →
        r.calls ≠ [] → r.calls.map GeminiCall.prompt = [c]) ∧
    (∀ (env : GenEnv) (now : Nat) (store : Store) (chats : ChatStore)
        (args : GenerateArgs) (r : GenerateResult) (c : String),
        generate_staging env now store chats args = r →
        args.custom_prompt = some c → c ≠ "" →
        optTruthy args.mask_image_url = true →
        r.calls ≠ [] →
        r.calls.map GeminiCall.prompt = [c ++ maskInstructionCustom] ∧
        containsClause maskInstructionCustom (c ++ maskInstructionCustom)) ∧
    (∀ (env : GenEnv) (now : Nat) (store : Store) (chats : ChatStore)
        (args : GenerateArgs) (r : GenerateResult),
        generate_staging env now store chats args = r →
        optTruthy args.custom_prompt = false →
        r.calls = [] ∧ r.store = store ∧ r.chats = chats ∧ r.response = none) ∧
    bindOk buildStagingPromptParams buildStagingPromptDefaults serviceBuildPromptKwargs
      = false := by
  refine ⟨?_, ?_, ?_, by decide⟩
  · intro env now store chats args r c hr hcp hcne hmask hne
    unfold generate_staging at hr
    dsimp only at hr
    repeat' split at hr
    all_goals subst hr
    all_goals try exact absurd rfl hne
    all_goals simp_all [optTruthy]
  · intro env now store chats args r c hr hcp hcne hmask hne
    have hcontains : containsClause maskInstructionCustom (c ++ maskInstructionCustom) := by
      rw [containsClause, String.data_app]
      exact (List.suffix_append _ _).isInfix
    unfold generate_staging at hr
    dsimp only at hr
    repeat' split at hr
    all_goals subst hr
    all_goals try exact absurd rfl hne
    all_goals refine ⟨?_, hcontains⟩
    all_goals simp_all [optTruthy]
  · intro env now store chats args r hr hcp
    unfold generate_staging at hr
    dsimp only at hr
    repeat' split at hr
    all_goals subst hr
    all_goals try exact ⟨rfl, rfl, rfl, rfl⟩
    all_goals simp_all

set_option maxRecDepth 8192 in
/-- C5 witness: the amended theorem applied to the unmasked run
`runSofa`, the masked run `runMask`, and the template-branch run
`runTemplate`. -/
theorem c5_prompt_construction_witness :
    runSofa.calls.map GeminiCall.prompt = ["Add a sofa"] ∧
    (runMask.calls.map GeminiCall.prompt = ["Add a sofa" ++ maskInstructionCustom] ∧
      containsClause maskInstructionCustom ("Add a sofa" ++ maskInstructionCustom)) ∧
    (runTemplate.calls = [] ∧ runTemplate.store = storeA ∧
      runTemplate.chats = chatsA ∧ runTemplate.response = none) :=
  ⟨c5_prompt_construction.1 envOK 7 storeA chatsA argsSofa runSofa "Add a sofa" rfl rfl
      (by decide) rfl (by decide),
   c5_prompt_construction.2.1 envOK 7 storeA chatsA argsMask runMask "Add a sofa" rfl rfl
      (by decide) rfl (by decide),
   c5_prompt_construction.2.2.1 envOK 7 storeA chatsA argsTemplate runTemplate rfl rfl⟩

/-- C6 counterexample: a save that succeeds (`runSaveBoth`) marks the
most recent generation-history entry `saved = true` but does not clear
the working-image fields — `current_image_url` and `current_image_path`
still hold the working image afterwards — and no per-index
`current_image_urls` map exists in the model to clear. -/
theorem c6_working_entry_counterexample :
    (runSaveBoth.response.map SaveChangeResponse.success) = some true ∧
    ((runSaveBoth.store.get "s3").bind VirtualStaging.current_image_url) =
      some "https://img/W" ∧
    ((runSaveBoth.store.get "s3").bind VirtualStaging.current_image_path) =
      some "uploads/generated_s2_v1.png" ∧
    ((runSaveBoth.store.get "s3").map
      (fun s => s.generation_history.map HistEntry.saved)) = some [some true] ∧
    virtualStagingFields.contains "current_image_urls" = false :=
  ⟨rfl, rfl, rfl, rfl, rfl⟩

set_option maxHeartbeats 1000000 in
/-- C6 (amended): after a successful `save_change`, the most recent
generation-history entry of the stored session has `saved = true` (when
the history is nonempty), a new `ImageVersion` is appended and the
version counter increments, the history content apart from the
saved-markers is unchanged, and the working-image fields
`current_image_url` / `current_image_path` are not cleared. -/
theorem c6_save_marks_last_entry_saved (env : GenEnv) (now : Nat)
    (store : Store) (sid : String) (r : SaveResult)
    (hr : save_change env now store sid = r)
    (resp : SaveChangeResponse) (hresp : r.response = some resp) :
    resp.success = true ∧
    (Store.get store sid).isSome = true ∧
    ∀ session, Store.get store sid = some session →
      ∃ session',
        r.store = Store.put store sid session' ∧
        session'.current_image_url = session.current_image_url ∧
        session'.current_image_path = session.current_image_path ∧
        session'.saved_versions.length = session.saved_versions.length + 1 ∧
        session'.version = session.version + 1 ∧
        session'.generation_history.map HistEntry.core =
          session.generation_history.map HistEntry.core ∧
        (session.generation_history ≠ [] →
          (session'.generation_history.getLast?).map HistEntry.saved =
            some (some true)) := by
  unfold save_change at hr
  dsimp only at hr
  repeat' split at hr
  all_goals subst hr
  all_goals dsimp only at hresp
  all_goals try exact Option.noConfusion hresp
  all_goals injection hresp with h2
  all_goals subst h2
  all_goals refine ⟨rfl, by simp [*], ?_⟩
  all_goals rw [‹Store.get store sid = some _›]
  all_goals intro ses hses
  all_goals injection hses with hses2
  all_goals subst hses2
  all_goals exact ⟨_, rfl, rfl, rfl, by simp, rfl, markLastSaved_map_core _ _ _ _,
    fun hne => markLastSaved_getLast_saved _ _ _ _ hne⟩

/-- C6 witness: the amended theorem applied to the successful save run
`runSaveBoth`. -/
theorem c6_save_marks_last_entry_saved_witness :
    respBoth.success = true ∧
    ∃ session',
      runSaveBoth.store = Store.put storeBoth "s3" session' ∧
      session'.current_image_url = sessBoth.current_image_url ∧
      session'.current_image_path = sessBoth.current_image_path ∧
      session'.saved_versions.length = sessBoth.saved_versions.length + 1 ∧
      session'.version = sessBoth.version + 1 ∧
      session'.generation_history.map HistEntry.core =
        sessBoth.generation_history.map HistEntry.core ∧
      (sessBoth.generation_history ≠ [] →
        (session'.generation_history.getLast?).map HistEntry.saved =
          some (some true)) :=
  ⟨(c6_save_marks_last_entry_saved envLocal 9 storeBoth "s3" runSaveBoth rfl
      respBoth rfl).1,
   (c6_save_marks_last_entry_saved envLocal 9 storeBoth "s3" runSaveBoth rfl
      respBoth rfl).2.2 sessBoth rfl⟩

set_option maxHeartbeats 2000000 in
/-- C7 (confirmed): when the Generation Client fails (raises or returns
nothing) or the blob upload fails, `generate_staging` returns no
response, writes nothing to the session or chat stores and commits
nothing; in every call at most one generation request and at most one
upload are attempted (no internal retry). -/
theorem c7_upstream_failure_no_mutation :
    (∀ (env : GenEnv) (now : Nat) (store : Store) (chats : ChatStore)
        (args : GenerateArgs) (r : GenerateResult),
        generate_staging env now store chats args = r →
        (∀ call, env.api call = none) →
        r.response = none ∧ r.store = store ∧ r.chats = chats ∧
        r.committed = false ∧ r.uploads = 0) ∧
    (∀ (env : GenEnv) (now : Nat) (store : Store) (chats : ChatStore)
        (args : GenerateArgs) (r : GenerateResult),
        generate_staging env now store chats args = r →
        (∀ b f fo, (env.upload b f fo).success = false) →
        r.response = none ∧ r.store = store ∧ r.chats = chats ∧ r.committed = false) ∧
    (∀ (env : GenEnv) (now : Nat) (store : Store) (chats : ChatStore)
        (args : GenerateArgs) (r : GenerateResult),
        generate_staging env now store chats args = r →
        r.calls.length ≤ 1 ∧ r.uploads ≤ 1) := by
  refine ⟨?_, ?_, ?_⟩
  · intro env now store chats args r hr hapi
    unfold generate_staging at hr
    dsimp only at hr
    repeat' split at hr
    all_goals subst hr
    all_goals try exact ⟨rfl, rfl, rfl, rfl, rfl⟩
    all_goals simp_all
  · intro env now store chats args r hr hup
    unfold generate_staging at hr
    dsimp only at hr
    repeat' split at hr
    all_goals subst hr
    all_goals try exact ⟨rfl, rfl, rfl, rfl⟩
    all_goals simp_all
  · intro env now store chats args r hr
    unfold generate_staging at hr
    dsimp only at hr
    repeat' split at hr
    all_goals subst hr
    all_goals exact ⟨by simp, by simp⟩

/-- C7 witness: the theorem applied to a run whose Generation Client
always fails and to a run whose blob store always fails. -/
theorem c7_upstream_failure_no_mutation_witness :
    ((generate_staging envApiFail 7 storeA chatsA argsSofa).response = none ∧
     (generate_staging envApiFail 7 storeA chatsA argsSofa).store = storeA ∧
     (generate_staging envApiFail 7 storeA chatsA argsSofa).chats = chatsA ∧
     (generate_staging envApiFail 7 storeA chatsA argsSofa).committed = false ∧
     (generate_staging envApiFail 7 storeA chatsA argsSofa).uploads = 0) ∧
    ((generate_staging envUpFail 7 storeA chatsA argsSofa).response = none ∧
     (generate_staging envUpFail 7 storeA chatsA argsSofa).store = storeA ∧
     (generate_staging envUpFail 7 storeA chatsA argsSofa).chats = chatsA ∧
     (generate_staging envUpFail 7 storeA chatsA argsSofa).committed = false) :=
  ⟨c7_upstream_failure_no_mutation.1 envApiFail 7 storeA chatsA argsSofa _ rfl
      (fun _ => rfl),
   c7_upstream_failure_no_mutation.2.1 envUpFail 7 storeA chatsA argsSofa _ rfl
      (fun _ _ _ => rfl)⟩

/-- C8 (confirmed): over any sequence of Session Service operations
(generate, refine, save, revert), the generation history of every
session is append-only — the projection of the existing entries onto
their generation content (everything except the saved-markers that
`save_change` sets on the most recent entry) is preserved as a prefix —
and its length grows by at least the number of successful
generate/refine calls against that session. -/
theorem c8_generation_history_append_only (ops : List Op)
    (s : Store × ChatStore) (sid : String) :
    ((historyAt s.1 sid).map HistEntry.core <+:
      (historyAt (runOps s ops).1 sid).map HistEntry.core) ∧
    (historyAt s.1 sid).length + commitCount s ops sid ≤
      (historyAt (runOps s ops).1 sid).length := by
  induction ops generalizing s with
  | nil => exact ⟨List.prefix_refl _, by simp [runOps, commitCount]⟩
  | cons op ops ih =>
    obtain ⟨p1, l1⟩ := stepOp_history op s sid
    obtain ⟨p2, l2⟩ := ih (stepOp s op)
    refine ⟨p1.trans p2, ?_⟩
    simp only [runOps, commitCount]
    omega

/-- C9 (confirmed): every `/generate` request that passes all
controller-level validation (session_id present, non-empty custom
prompt, image_index present and within the panoramic range, session and
property found) ends in a 500 response with no state mutation and no
Generation-Client call, because the controller passes the keyword
`image_index` to `generate_staging`, which has no such parameter —
the binding raises `TypeError` before the service body runs. -/
theorem c9_generate_endpoint_always_500 (genv : GenEnv) (now : Nat)
    (env : WebEnv) (form : GenerateForm) (idx : Int)
    (session : VirtualStaging) (property : PropertyRec)
    (hsid : optTruthy form.session_id = true)
    (hcp : optTruthy form.custom_prompt = true)
    (hstrip : pyStrip (form.custom_prompt.getD "") ≠ "")
    (hidx : form.image_index = some idx)
    (hsess : Store.get env.store (form.session_id.getD "") = some session)
    (hprop : PropStore.get env.props session.property_id = some property)
    (h0 : 0 ≤ idx)
    (hlt : idx < ((property.images.filter
      (fun i => i.imageType == "panoramic")).length : Int)) :
    generate_staging_handler genv now env form = ⟨500, env, []⟩ := by
  unfold generate_staging_handler
  dsimp only
  repeat' split
  all_goals try exact absurd ‹bindOk generateStagingParamsSvc generateStagingDefaultsSvc controllerGenerateKwargs = true› (by decide)
  all_goals try rfl
  all_goals exfalso
  all_goals simp_all
  all_goals try omega
  all_goals rename_i h
  all_goals rw [List.filter_eq_nil_iff.mpr (by simpa using h)] at hlt
  all_goals simp at hlt
  all_goals omega

/-- C9 witness: the theorem applied to the concrete valid request
`formA` against `webEnvA`. -/
theorem c9_generate_endpoint_always_500_witness :
    generate_staging_handler envOK 7 webEnvA formA = ⟨500, webEnvA, []⟩ :=
  c9_generate_endpoint_always_500 envOK 7 webEnvA formA 1 sessA propP rfl rfl
    (by decide) rfl rfl rfl (by decide) (by decide)

/-- C10 (confirmed): every `/session` (create) request naming an
existing property with at least one panoramic image ends in a 500
response with no session document and no chat history created, because
the controller passes the keyword `panoramic_images` — which
`create_staging_session_from_s3` does not accept — and omits the
required `user_id` and `room_name`, so the binding raises `TypeError`
before the service body runs. -/
theorem c10_create_endpoint_always_500 (env : WebEnv) (form : CreateForm)
    (pid : String) (property : PropertyRec)
    (hpid : form.property_id = some pid) (hne : pid ≠ "")
    (hprop : PropStore.get env.props pid = some property)
    (hpan : (property.images.filter (fun i => i.imageType == "panoramic")).isEmpty
      = false) :
    create_session_handler env form = ⟨500, env, []⟩ ∧
    bindOk createSessionParamsSvc [] controllerCreateKwargs = false := by
  refine ⟨?_, by decide⟩
  unfold create_session_handler
  dsimp only
  repeat' split
  all_goals try rfl
  all_goals exfalso
  all_goals simp_all [optTruthy]
  all_goals obtain ⟨x, hx1, hx2⟩ := hpan
  all_goals rename_i hall
  all_goals exact hall x hx1 hx2

/-- C10 witness: the theorem applied to the concrete create request
`createFormA` against `webEnvA`. -/
theorem c10_create_endpoint_always_500_witness :
    create_session_handler webEnvA createFormA = ⟨500, webEnvA, []⟩ ∧
    bindOk createSessionParamsSvc [] controllerCreateKwargs = false :=
  c10_create_endpoint_always_500 webEnvA createFormA "p1" propP rfl (by decide)
    rfl (by decide)
